import Mathlib

/-
  Verification development for the Remote-access relay & pairing engine.

  Shallow embedding of:
  - src/persistent_cloud_relay.py   (the relay: device directory, pairing
    store, connection registry, message routing in `handle_client`, and
    `save_persistent_data`)
  - src/persistent_laptop_client.py (the host-side client:
    `handle_pair_request`, `generate_pairing_code`)

  Conventions of the embedding:
  - Python dicts (`devices`, `device_info`) become insertion-ordered
    association lists with `dictGet` / `dictSet` / `dictDel` mirroring
    `d[k]`, `d[k] = v`, `del d[k]`.
  - The Python set `paired_devices` becomes a duplicate-free list with
    `pySetAdd` mirroring `s.add(x)`.
  - Device-id values that can be Python `None` (a connection's registered
    id before any `register` message) are `Option String`; message fields
    are modelled as present (well-formed messages).
  - A websocket is a `ConnId`; the environment `sendOk : ConnId → Bool`
    says whether a transport write to that connection succeeds or raises.
    A raised write aborts the remaining sends of the current message
    (the handler's per-message `except` clause), except where the source
    wraps the write in its own try/except.
  - Handlers return the new global state, the list of observable effects
    (persistence flushes and successful sends) in program order, and the
    connection's registered device id.
  - SHA-256 (used only for the device fingerprint) is a parameter
    `sha256hex` of the registration handler.
-/

namespace RemoteAccess

/-- Identity of one live websocket connection. -/
abbrev ConnId := Nat

/-- Persistent per-device metadata record, the values of `device_info`
(`persistent_cloud_relay.py`, register branch). -/
structure DeviceInfo where
  device_type : String
  device_name : String
  fingerprint : String
  first_seen : String
  last_seen : String
deriving DecidableEq, Repr

/-- Python dict lookup `d.get(k)` on an insertion-ordered association list. -/
def dictGet (k : String) : List (String × α) → Option α
  | [] => none
  | (k', v) :: rest => if k' = k then some v else dictGet k rest

/-- Python dict assignment `d[k] = v`: replaces in place when the key is
present (keeping its position), otherwise appends. -/
def dictSet (k : String) (v : α) : List (String × α) → List (String × α)
  | [] => [(k, v)]
  | (k', v') :: rest => if k' = k then (k, v) :: rest else (k', v') :: dictSet k v rest

/-- Python dict deletion `del d[k]`. -/
def dictDel (k : String) : List (String × α) → List (String × α)
  | [] => []
  | (k', v') :: rest => if k' = k then rest else (k', v') :: dictDel k rest

/-- The dict invariant: keys are pairwise distinct. -/
def keysNodup (l : List (String × α)) : Prop := (l.map Prod.fst).Nodup

/-- Number of entries stored under key `k`. -/
def countKey (k : String) (l : List (String × α)) : Nat := (l.map Prod.fst).count k

/-- Python set insertion `s.add(x)`: a no-op when the element is present. -/
def pySetAdd [DecidableEq α] (x : α) (s : List α) : List α :=
  if x ∈ s then s else s ++ [x]

/-- One stored pairing: the tuple `(device_id, target_id)` added by the
`pair_response` branch.  Components are `Option String` because the adding
connection's registered id can be Python `None`. -/
abbrev Pairing := Option String × Option String

/-- The relay's global mutable state: `devices` (runtime connection
registry), `device_info` (persistent device directory) and
`paired_devices` (persistent pairing store). -/
structure RelayState where
  devices : List (String × ConnId)
  device_info : List (String × DeviceInfo)
  paired_devices : List Pairing
deriving DecidableEq, Repr

/-- One entry of the `existing_pairings` list pushed on registration. -/
structure PeerInfo where
  peer_device_id : String
  peer_device_name : String
  peer_device_type : String
deriving DecidableEq, Repr

/-- Outbound relay messages (the JSON objects written by
`websocket.send(json.dumps(...))` in `handle_client`). -/
inductive Msg where
  | registered (device_id : String) (is_known_device : Bool) (message : String)
  | existing_pairings (pairings : List PeerInfo) (message : String)
  | pair_request (from_device_id : Option String) (pairing_code : String) (device_name : String)
  | pairing_failed (message : String)
  | paired (peer_device_id : String) (peer_device_name : String)
      (is_persistent : Bool) (message : String)
  | unpaired (target_device_id : Option String) (message : String)
  | relay_message (from_device_id : Option String) (message_type : String) (payload : String)
  | relay_failed (message : String)
  | error (message : String)
deriving DecidableEq, Repr

/-- Observable effects of handling one inbound message, in program order:
a persistence flush (`save_persistent_data`), a successful transport
write, or a connection close. -/
inductive Effect where
  | save
  | send (conn : ConnId) (msg : Msg)
  | close (conn : ConnId)
deriving DecidableEq, Repr

/-- `true` exactly on `close` effects. -/
def Effect.isClose : Effect → Bool
  | .close _ => true
  | _ => false

/-- Inbound client messages the relay dispatches on (fields modelled as
present). -/
inductive ClientMsg where
  | register (device_id : String) (device_type : String) (device_name : String)
  | pair_request (pairing_code : String) (device_name : String)
  | pair_response (target_device_id : String) (accepted : Bool) (message : String)
  | unpair_device (target_device_id : String)
  | relay_message (target_device_id : String) (message_type : String) (payload : String)
deriving DecidableEq, Repr

/-- Result of handling one inbound message on one connection. -/
structure StepResult where
  state : RelayState
  effects : List Effect
  deviceId : Option String
deriving DecidableEq, Repr

/-- `generate_device_fingerprint`: first 16 hex chars of
`sha256(f"{device_id}:{device_name}")`. -/
def generate_device_fingerprint (sha256hex : String → String)
    (device_id device_name : String) : String :=
  (sha256hex (device_id ++ ":" ++ device_name)).take 16

/-- The `register` branch of `handle_client`: put the connection in the
registry, upsert the directory entry (new device: full record; known
device: `last_seen` only), flush, acknowledge, then push any existing
pairings for this id. -/
def handle_register (sha256hex : String → String) (sendOk : ConnId → Bool)
    (s : RelayState) (c : ConnId) (now : String)
    (device_id device_type device_name : String) : StepResult :=
  let devices' := dictSet device_id c s.devices
  let fingerprint := generate_device_fingerprint sha256hex device_id device_name
  let is_known := (dictGet device_id s.device_info).isSome
  let info' :=
    match dictGet device_id s.device_info with
    | some d => dictSet device_id { d with last_seen := now } s.device_info
    | none =>
        dictSet device_id
          ⟨device_type, device_name, fingerprint, now, now⟩ s.device_info
  let my_pairings : List PeerInfo := s.paired_devices.filterMap (fun pair =>
    if pair.1 = some device_id ∨ pair.2 = some device_id then
      match (if pair.1 = some device_id then pair.2 else pair.1) with
      | some peer_id =>
          match dictGet peer_id info' with
          | some pinfo => some ⟨peer_id, pinfo.device_name, pinfo.device_type⟩
          | none => none
      | none => none
    else none)
  let effs :=
    Effect.save ::
      (if sendOk c then
        Effect.send c (.registered device_id is_known
            (device_type ++ " registered successfully")) ::
          (if my_pairings ≠ [] then
            [Effect.send c (.existing_pairings my_pairings
              ("Found " ++ toString my_pairings.length ++ " existing pairing(s)"))]
          else [])
      else [])
  ⟨{ s with devices := devices', device_info := info' }, effs, some device_id⟩

/-- The laptop-scan loop of the `pair_request` branch: first entry of the
connection registry whose directory record has `device_type == "laptop"`
and whose transport write succeeds (a raising write is swallowed and the
scan continues). -/
def findLaptopConn (sendOk : ConnId → Bool) (info : List (String × DeviceInfo)) :
    List (String × ConnId) → Option ConnId
  | [] => none
  | (laptop_id, w) :: rest =>
    if (dictGet laptop_id info).map DeviceInfo.device_type = some "laptop" then
      if sendOk w then some w else findLaptopConn sendOk info rest
    else findLaptopConn sendOk info rest

/-- The `pair_request` branch of `handle_client`: forward the offer
(code, companion name, companion id) to the first reachable laptop, or
answer `pairing_failed` when none is found. -/
def handle_pair_request (sendOk : ConnId → Bool) (s : RelayState) (c : ConnId)
    (connDeviceId : Option String) (pairing_code device_name : String) : StepResult :=
  match findLaptopConn sendOk s.device_info s.devices with
  | some w => ⟨s, [Effect.send w (.pair_request connDeviceId pairing_code device_name)],
      connDeviceId⟩
  | none =>
      ⟨s, if sendOk c then [Effect.send c (.pairing_failed "No laptops available")] else [],
        connDeviceId⟩

/-- The `pair_response` branch of `handle_client`.  Nothing happens when
the target is not in the registry.  On accept: the tuple
`(device_id, target_id)` is added to the pairing store, the store is
flushed, then the responder and the target are notified (a missing
directory record — a Python `KeyError` while composing a notification —
aborts the remaining sends but keeps the recorded pairing). -/
def handle_pair_response (sendOk : ConnId → Bool) (s : RelayState) (c : ConnId)
    (connDeviceId : Option String) (target_id : String) (accepted : Bool)
    (message : String) : StepResult :=
  match dictGet target_id s.devices with
  | none => ⟨s, [], connDeviceId⟩
  | some tc =>
    if accepted then
      let paired' := pySetAdd (connDeviceId, some target_id) s.paired_devices
      let effs :=
        Effect.save ::
          (match dictGet target_id s.device_info with
          | none => []
          | some tinfo =>
            if sendOk c then
              Effect.send c (.paired target_id tinfo.device_name true message) ::
                (match connDeviceId with
                | none => []
                | some sid =>
                  match dictGet sid s.device_info with
                  | none => []
                  | some sinfo =>
                    if sendOk tc then
                      [Effect.send tc (.paired sid sinfo.device_name true
                        "Successfully paired with laptop (persistent)")]
                    else [])
            else [])
      ⟨{ s with paired_devices := paired' }, effs, connDeviceId⟩
    else
      ⟨s, if sendOk tc then [Effect.send tc (.pairing_failed message)] else [],
        connDeviceId⟩

/-- The `unpair_device` branch of `handle_client`: drop every stored pair
containing both ids, flush, acknowledge the requester, then notify the
target when connected. -/
def handle_unpair_device (sendOk : ConnId → Bool) (s : RelayState) (c : ConnId)
    (connDeviceId : Option String) (target_id : String) : StepResult :=
  let keep := s.paired_devices.filter (fun pair =>
    decide (¬ ((pair.1 = connDeviceId ∨ pair.2 = connDeviceId) ∧
               (pair.1 = some target_id ∨ pair.2 = some target_id))))
  let effs :=
    Effect.save ::
      (if sendOk c then
        Effect.send c (.unpaired (some target_id) "Device unpaired successfully") ::
          (match dictGet target_id s.devices with
          | some tc =>
            if sendOk tc then
              [Effect.send tc (.unpaired connDeviceId "Device was unpaired remotely")]
            else []
          | none => [])
      else [])
  ⟨{ s with paired_devices := keep }, effs, connDeviceId⟩

/-- The `relay_message` branch of `handle_client`: the pairing check
tries both tuple orientations; a paired, connected target gets the
payload forwarded (the write is wrapped in try/except — a failure is
swallowed with no report to anyone); otherwise the sender gets
`relay_failed`. -/
def handle_relay_message (sendOk : ConnId → Bool) (s : RelayState) (c : ConnId)
    (connDeviceId : Option String) (target_id message_type payload : String) : StepResult :=
  if (connDeviceId, some target_id) ∈ s.paired_devices ∨
     (some target_id, connDeviceId) ∈ s.paired_devices then
    match dictGet target_id s.devices with
    | some tc =>
        ⟨s, if sendOk tc then
              [Effect.send tc (.relay_message connDeviceId message_type payload)]
            else [], connDeviceId⟩
    | none =>
        ⟨s, if sendOk c then [Effect.send c (.relay_failed "Target device is offline")]
            else [], connDeviceId⟩
  else
    ⟨s, if sendOk c then [Effect.send c (.relay_failed "Devices are not paired")]
        else [], connDeviceId⟩

/-- One iteration of `handle_client`'s message loop: dispatch on the
message type. -/
def handle_client_msg (sha256hex : String → String) (sendOk : ConnId → Bool)
    (s : RelayState) (c : ConnId) (connDeviceId : Option String) (now : String) :
    ClientMsg → StepResult
  | .register id t n => handle_register sha256hex sendOk s c now id t n
  | .pair_request code name => handle_pair_request sendOk s c connDeviceId code name
  | .pair_response t a m => handle_pair_response sendOk s c connDeviceId t a m
  | .unpair_device t => handle_unpair_device sendOk s c connDeviceId t
  | .relay_message t mt p => handle_relay_message sendOk s c connDeviceId t mt p

/-- The `finally` block of `handle_client`: when this connection had
registered a (truthy) device id that is still a key of the registry, the
registry entry for that id is deleted — without checking that it still
belongs to this connection — and `last_seen` is refreshed and flushed. -/
def handle_client_cleanup (s : RelayState) (connDeviceId : Option String)
    (now : String) : RelayState × List Effect :=
  match connDeviceId with
  | none => (s, [])
  | some id =>
    if id = "" then (s, [])
    else
      match dictGet id s.devices with
      | none => (s, [])
      | some _ =>
        let devices' := dictDel id s.devices
        match dictGet id s.device_info with
        | some d =>
            ({ s with
                devices := devices',
                device_info := dictSet id { d with last_seen := now } s.device_info },
              [Effect.save])
        | none => ({ s with devices := devices' }, [])

/-- `DEVICES_FILE`: durable path of the device directory. -/
def DEVICES_FILE : String := "~/.laptop_remote_access/devices.json"

/-- `PAIRINGS_FILE`: durable path of the pairing store. -/
def PAIRINGS_FILE : String := "~/.laptop_remote_access/pairings.json"

/-- File-system operations a persistence routine can perform: a direct
in-place truncating write (`open(path, 'w')` followed by `json.dump`), or
a rename. -/
inductive FsOp where
  | writeFile (path : String) (contents : String)
  | renameFile (src : String) (dst : String)
deriving DecidableEq, Repr

/-- Full serialization of the device directory (stand-in for
`json.dump(device_info, f)`; the byte format is immaterial, what matters
is that it is a function of the whole store). -/
def serializeDeviceInfo (info : List (String × DeviceInfo)) : String :=
  String.intercalate ","
    (info.map (fun p =>
      p.1 ++ ":" ++ p.2.device_type ++ ":" ++ p.2.device_name ++ ":" ++
        p.2.fingerprint ++ ":" ++ p.2.first_seen ++ ":" ++ p.2.last_seen))

/-- Full serialization of the pairing store (stand-in for
`json.dump(pairing_list, f)`). -/
def serializePairings (pairs : List Pairing) : String :=
  String.intercalate ","
    (pairs.map (fun p => p.1.getD "null" ++ "|" ++ p.2.getD "null"))

/-- `save_persistent_data`: the file operations it performs — a direct
truncating write of each durable file with the full serialized store. -/
def save_persistent_data (s : RelayState) : List FsOp :=
  [FsOp.writeFile DEVICES_FILE (serializeDeviceInfo s.device_info),
   FsOp.writeFile PAIRINGS_FILE (serializePairings s.paired_devices)]

/-- Modelled from the spec: "writes must be atomic (write to a temp
location then rename, or equivalent) so a crash mid-write cannot corrupt
the store".  A trace of file operations is atomic for the given durable
paths when no durable path is ever the target of a direct in-place
write — durable paths may only be produced whole, by renaming a
temporary file into place. -/
def atomicWriteTrace (durable : List String) (ops : List FsOp) : Prop :=
  ∀ p c, FsOp.writeFile p c ∈ ops → p ∉ durable

/-- `contains` as the relay checks it in `relay_message`: the tuple is
looked up in both orientations. -/
def pairedContains (s : RelayState) (a b : String) : Prop :=
  (some a, some b) ∈ s.paired_devices ∨ (some b, some a) ∈ s.paired_devices

/-- The data-model invariant stated by the spec: every device id occurring
in a stored pairing has a directory record. -/
def pairingsRegistered (s : RelayState) : Prop :=
  ∀ p ∈ s.paired_devices, ∀ a : String,
    (p.1 = some a ∨ p.2 = some a) → (dictGet a s.device_info).isSome

/- ------------------------------------------------------------------
   The host-side client (src/persistent_laptop_client.py)
   ------------------------------------------------------------------ -/

/-- The fields of `PersistentLaptopClient` that the pairing handlers
touch. -/
structure LaptopClientState where
  device_name : String
  pairing_code : Option String
deriving DecidableEq, Repr

/-- The `pair_response` JSON object the client sends back to the relay. -/
structure PairResponseOut where
  target_device_id : String
  accepted : Bool
  message : String
deriving DecidableEq, Repr

namespace PersistentLaptopClient

/-- `PersistentLaptopClient.handle_pair_request`: accept exactly when
`self.pairing_code` is truthy (non-`None`, non-empty) and the offered
code equals it; the client state — in particular `pairing_code` — is
returned unchanged in both branches. -/
def handle_pair_request (st : LaptopClientState) (pairing_code : String)
    (mobile_device_id : String) : PairResponseOut × LaptopClientState :=
  if (match st.pairing_code with
      | some pc => decide (pc ≠ "") && decide (pairing_code = pc)
      | none => false) then
    (⟨mobile_device_id, true, "Paired with " ++ st.device_name ++ " (persistent)"⟩, st)
  else
    (⟨mobile_device_id, false, "Invalid pairing code"⟩, st)

/-- Decimal rendering of a natural number, most significant digit first
(the meaning of Python's `f"{n}"` for a non-negative int). -/
def decimalChars (n : Nat) : List Char :=
  if n = 0 then ['0'] else ((Nat.digits 10 n).map Nat.digitChar).reverse

/-- `PersistentLaptopClient.generate_pairing_code`:
`f"{random.randint(100000, 999999)}"`, with `n` standing for the integer
drawn by `random.randint` (inclusive on both bounds). -/
def generate_pairing_code (n : Nat) : List Char := decimalChars n

end PersistentLaptopClient

/- ------------------------------------------------------------------
   Shared lemmas about the dict embedding
   ------------------------------------------------------------------ -/

theorem dictGet_dictSet_self (k : String) (v : α) (l : List (String × α)) :
    dictGet k (dictSet k v l) = some v := by
  induction l with
  | nil => simp [dictGet, dictSet]
  | cons h t ih =>
    by_cases hk : h.1 = k
    · simp [dictSet, hk, dictGet]
    · simp only [dictSet, dictGet]
      rw [if_neg hk, dictGet, if_neg hk]
      exact ih

theorem dictGet_dictSet_ne (k k' : String) (v : α) (l : List (String × α))
    (h : k' ≠ k) : dictGet k' (dictSet k v l) = dictGet k' l := by
  induction l with
  | nil =>
    simp only [dictSet, dictGet]
    rw [if_neg (fun h' => h h'.symm)]
  | cons hd t ih =>
    by_cases hk : hd.1 = k
    · simp only [dictSet]
      rw [if_pos hk, dictGet, dictGet, if_neg (fun h' => h h'.symm), if_neg]
      rw [hk]; exact fun h' => h h'.symm
    · simp only [dictSet]
      rw [if_neg hk, dictGet, dictGet]
      by_cases hk' : hd.1 = k'
      · rw [if_pos hk', if_pos hk']
      · rw [if_neg hk', if_neg hk']; exact ih

theorem mem_keys_dictSet (a k : String) (v : α) (l : List (String × α)) :
    a ∈ (dictSet k v l).map Prod.fst ↔ a = k ∨ a ∈ l.map Prod.fst := by
  induction l with
  | nil => simp [dictSet, eq_comm]
  | cons hd t ih =>
    obtain ⟨k', v'⟩ := hd
    by_cases hk : k' = k
    · subst hk
      simp [dictSet]
    · simp only [dictSet, if_neg hk, List.map_cons, List.mem_cons, ih]
      tauto

theorem dictGet_eq_none_of_not_mem_keys (k : String) (l : List (String × α))
    (h : k ∉ l.map Prod.fst) : dictGet k l = none := by
  induction l with
  | nil => simp [dictGet]
  | cons hd t ih =>
    simp only [List.map_cons, List.mem_cons] at h
    push_neg at h
    rw [dictGet, if_neg (fun h' => h.1 h'.symm)]
    exact ih h.2

theorem keysNodup_dictSet (k : String) (v : α) (l : List (String × α))
    (h : keysNodup l) : keysNodup (dictSet k v l) := by
  induction l with
  | nil => simp [dictSet, keysNodup]
  | cons hd t ih =>
    unfold keysNodup at h ⊢
    simp only [List.map_cons, List.nodup_cons] at h
    by_cases hk : hd.1 = k
    · simp only [dictSet, if_pos hk, List.map_cons, List.nodup_cons]
      exact ⟨hk ▸ h.1, h.2⟩
    · simp only [dictSet, if_neg hk, List.map_cons, List.nodup_cons]
      refine ⟨fun hmem => ?_, ih h.2⟩
      rcases (mem_keys_dictSet hd.1 k v t).mp hmem with heq | hmem'
      · exact hk heq
      · exact h.1 hmem'

theorem dictGet_dictDel_self (k : String) (l : List (String × α))
    (h : keysNodup l) : dictGet k (dictDel k l) = none := by
  induction l with
  | nil => simp [dictDel, dictGet]
  | cons hd t ih =>
    unfold keysNodup at h
    simp only [List.map_cons, List.nodup_cons] at h
    by_cases hk : hd.1 = k
    · rw [dictDel, if_pos hk]
      exact dictGet_eq_none_of_not_mem_keys k t (hk ▸ h.1)
    · rw [dictDel, if_neg hk, dictGet, if_neg hk]
      exact ih h.2

theorem countKey_dictSet (k : String) (v : α) (l : List (String × α))
    (h : keysNodup l) : countKey k (dictSet k v l) = 1 := by
  induction l with
  | nil => simp [dictSet, countKey]
  | cons hd t ih =>
    unfold keysNodup at h
    simp only [List.map_cons, List.nodup_cons] at h
    by_cases hk : hd.1 = k
    · unfold countKey
      simp only [dictSet, if_pos hk, List.map_cons]
      rw [List.count_cons_self]
      have : (t.map Prod.fst).count k = 0 :=
        List.count_eq_zero.mpr (hk ▸ h.1)
      omega
    · unfold countKey at ih ⊢
      simp only [dictSet, if_neg hk, List.map_cons]
      rw [List.count_cons_of_ne (fun h' => hk h'.symm)]
      exact ih h.2

/-- An element just added by `pySetAdd` is a member afterwards. -/
theorem mem_pySetAdd_self [DecidableEq α] (x : α) (s : List α) : x ∈ pySetAdd x s := by
  unfold pySetAdd
  by_cases h : x ∈ s
  · rw [if_pos h]; exact h
  · rw [if_neg h]; simp

/- ------------------------------------------------------------------
   Concrete fixtures used by witnesses and counterexamples
   ------------------------------------------------------------------ -/

/-- A fixed stand-in for the SHA-256 hex digest function. -/
def hashW : String → String := fun _ => "0123456789abcdef0123456789abcdef"

/-- Transport model in which every write succeeds. -/
def sendOkW : ConnId → Bool := fun _ => true

/-- Transport model in which writes to connection 1 raise. -/
def sendOkFail1 : ConnId → Bool := fun i => i == 0

/-- Directory record of the fixture laptop. -/
def infoA : DeviceInfo := ⟨"laptop", "Lap", "f", "t0", "t0"⟩

/-- Directory record of the fixture mobile. -/
def infoB : DeviceInfo := ⟨"mobile", "Mob", "f", "t0", "t0"⟩

/-- Relay state with no devices, directory entries or pairings. -/
def emptyState : RelayState := ⟨[], [], []⟩

/-- Two registered, connected, unpaired devices. -/
def sUnpaired : RelayState := ⟨[("A", 0), ("B", 1)], [("A", infoA), ("B", infoB)], []⟩

/-- Two registered, connected devices paired as `("A", "B")`. -/
def sPairedAB : RelayState :=
  ⟨[("A", 0), ("B", 1)], [("A", infoA), ("B", infoB)], [(some "A", some "B")]⟩

/-- Two registered, connected devices paired in the reversed orientation
`("B", "A")`. -/
def sRevPaired : RelayState :=
  ⟨[("A", 0), ("B", 1)], [("A", infoA), ("B", infoB)], [(some "B", some "A")]⟩

/- ------------------------------------------------------------------
   C1
   ------------------------------------------------------------------ -/

/-- C1: for a `relay_message` from a registered sender, if the sender and
target are not recorded as a pairing (checked in either orientation) or
either device lacks a directory record — under the data-model invariant
that every paired id is in the directory — the relay leaves the state
unchanged and produces exactly one effect: a `relay_failed` message
(text "Devices are not paired") to the sender's own connection, so
nothing is delivered to the target.  In particular two
registered-but-unpaired devices get `relay_failed` and no delivery. -/
theorem relay_unpaired_or_unknown_fails_to_sender_only
    (hash : String → String) (sendOk : ConnId → Bool) (s : RelayState)
    (c : ConnId) (sid now target mtype payload : String)
    (hinv : pairingsRegistered s) (hok : sendOk c = true)
    (hpre : ¬ pairedContains s sid target ∨
      dictGet sid s.device_info = none ∨ dictGet target s.device_info = none) :
    handle_client_msg hash sendOk s c (some sid) now
        (.relay_message target mtype payload) =
      ⟨s, [Effect.send c (.relay_failed "Devices are not paired")], some sid⟩ := by
  have hnp : ¬ ((some sid, some target) ∈ s.paired_devices ∨
      (some target, some sid) ∈ s.paired_devices) := by
    rcases hpre with h | h | h
    · exact h
    · rintro (hm | hm)
      · have := hinv _ hm sid (Or.inl rfl)
        rw [h] at this; simp at this
      · have := hinv _ hm sid (Or.inr rfl)
        rw [h] at this; simp at this
    · rintro (hm | hm)
      · have := hinv _ hm target (Or.inr rfl)
        rw [h] at this; simp at this
      · have := hinv _ hm target (Or.inl rfl)
        rw [h] at this; simp at this
  simp only [handle_client_msg, handle_relay_message, if_neg hnp, hok, if_true]

/-- C1 witness: the theorem applied to two registered-but-unpaired
devices `"A"` and `"B"`. -/
theorem relay_unpaired_witness :
    (pairingsRegistered sUnpaired ∧ sendOkW 0 = true ∧
      ¬ pairedContains sUnpaired "A" "B") ∧
    handle_client_msg hashW sendOkW sUnpaired 0 (some "A") "t1"
        (.relay_message "B" "cmd" "p") =
      ⟨sUnpaired, [Effect.send 0 (.relay_failed "Devices are not paired")], some "A"⟩ :=
  ⟨⟨fun p hp => by simp [sUnpaired] at hp, rfl,
      by simp [pairedContains, sUnpaired]⟩,
   relay_unpaired_or_unknown_fails_to_sender_only hashW sendOkW sUnpaired 0 "A" "t1"
     "B" "cmd" "p" (fun p hp => by simp [sUnpaired] at hp) rfl
     (Or.inl (by simp [pairedContains, sUnpaired]))⟩

/- ------------------------------------------------------------------
   C2
   ------------------------------------------------------------------ -/

/-- C2: an accepted `pair_response` from a registered host to a connected
companion with a directory record adds the `(host, companion)` tuple to
the pairing store, flushes it, and then sends both sides a `paired`
notification carrying the peer's device id and display name — responder
first, companion second — provided both transports are writable. -/
theorem pair_response_accept_records_and_notifies_both
    (hash : String → String) (sendOk : ConnId → Bool) (s : RelayState)
    (c tc : ConnId) (sid now target m : String) (tinfo sinfo : DeviceInfo)
    (htc : dictGet target s.devices = some tc)
    (hti : dictGet target s.device_info = some tinfo)
    (hsi : dictGet sid s.device_info = some sinfo)
    (hokc : sendOk c = true) (hoktc : sendOk tc = true) :
    handle_client_msg hash sendOk s c (some sid) now (.pair_response target true m) =
      ⟨{ s with paired_devices := pySetAdd (some sid, some target) s.paired_devices },
       [Effect.save,
        Effect.send c (.paired target tinfo.device_name true m),
        Effect.send tc (.paired sid sinfo.device_name true
          "Successfully paired with laptop (persistent)")],
       some sid⟩ ∧
    pairedContains
      { s with paired_devices := pySetAdd (some sid, some target) s.paired_devices }
      sid target := by
  constructor
  · simp only [handle_client_msg, handle_pair_response, htc, hti, hsi, hokc, hoktc,
      if_true, if_pos rfl]
  · exact Or.inl (mem_pySetAdd_self _ _)

/-- C2 witness: the theorem applied to the laptop `"A"` accepting the
companion `"B"` in the unpaired fixture state. -/
theorem pair_response_accept_witness :
    (dictGet "B" sUnpaired.devices = some 1 ∧
      dictGet "B" sUnpaired.device_info = some infoB ∧
      dictGet "A" sUnpaired.device_info = some infoA) ∧
    (handle_client_msg hashW sendOkW sUnpaired 0 (some "A") "t1"
        (.pair_response "B" true "hi") =
      ⟨{ sUnpaired with
          paired_devices := pySetAdd (some "A", some "B") sUnpaired.paired_devices },
       [Effect.save,
        Effect.send 0 (.paired "B" infoB.device_name true "hi"),
        Effect.send 1 (.paired "A" infoA.device_name true
          "Successfully paired with laptop (persistent)")],
       some "A"⟩ ∧
     pairedContains
       { sUnpaired with
          paired_devices := pySetAdd (some "A", some "B") sUnpaired.paired_devices }
       "A" "B") :=
  ⟨⟨by decide, by decide, by decide⟩,
   pair_response_accept_records_and_notifies_both hashW sendOkW sUnpaired 0 1 "A" "t1"
     "B" "hi" infoB infoA (by decide) (by decide) (by decide) rfl rfl⟩

/- ------------------------------------------------------------------
   C3
   ------------------------------------------------------------------ -/

/-- C3 counterexample: devices `"A"` and `"B"` are paired, the target
`"B"` has a live session (connection 1) and the transport write to it
raises (`sendOkFail1 1 = false`), yet handling the `relay_message`
produces no effect at all — in particular no `RelayFailed` report to the
sender — because the source wraps the forwarding write in
`try/except: pass`.  (No `RelaySucceeded` exists in the source either.) -/
theorem relay_transport_failure_silently_swallowed_cex :
    pairedContains sPairedAB "A" "B" ∧
    dictGet "B" sPairedAB.devices = some 1 ∧
    sendOkFail1 1 = false ∧
    (handle_client_msg hashW sendOkFail1 sPairedAB 0 (some "A") "t1"
      (.relay_message "B" "cmd" "p")).effects = [] :=
  ⟨Or.inl (by decide), by decide, by decide, by decide⟩

/-- C3 amended: when the pairing check passes and the target has a live
session, the relay forwards the payload exactly when the transport write
succeeds, and in neither outcome does the sender receive any
success/failure report: a failed write is silently swallowed (only the
not-paired and target-offline branches answer the sender). -/
theorem relay_forward_no_delivery_report
    (hash : String → String) (sendOk : ConnId → Bool) (s : RelayState)
    (c tc : ConnId) (sid now target mtype payload : String)
    (hpair : pairedContains s sid target)
    (htc : dictGet target s.devices = some tc) :
    handle_client_msg hash sendOk s c (some sid) now
        (.relay_message target mtype payload) =
      ⟨s,
       if sendOk tc then [Effect.send tc (.relay_message (some sid) mtype payload)]
       else [],
       some sid⟩ := by
  unfold pairedContains at hpair
  simp only [handle_client_msg, handle_relay_message, if_pos hpair, htc]

/-- C3 witness: the amended theorem applied to the paired fixture with a
working transport: the payload is forwarded and the sender receives
nothing. -/
theorem relay_forward_witness :
    (pairedContains sPairedAB "A" "B" ∧ dictGet "B" sPairedAB.devices = some 1) ∧
    handle_client_msg hashW sendOkW sPairedAB 0 (some "A") "t1"
        (.relay_message "B" "cmd" "p") =
      ⟨sPairedAB,
       if sendOkW 1 then [Effect.send 1 (.relay_message (some "A") "cmd" "p")] else [],
       some "A"⟩ :=
  ⟨⟨Or.inl (by decide), by decide⟩,
   relay_forward_no_delivery_report hashW sendOkW sPairedAB 0 1 "A" "t1" "B" "cmd" "p"
     (Or.inl (by decide)) (by decide)⟩

/- ------------------------------------------------------------------
   C4
   ------------------------------------------------------------------ -/

/-- Host-client fixture: a laptop that has issued the code `"123456"`. -/
def lapSt : LaptopClientState := ⟨"Laptop (host)", some "123456"⟩

/-- C4 counterexample: the host accepts an offer matching its issued
code, its state (including `pairing_code`) is unchanged by the handler,
and a second offer carrying the same code is accepted again — the code
is not single-use. -/
theorem pairing_code_reused_after_accept_cex :
    (PersistentLaptopClient.handle_pair_request lapSt "123456" "mob1").1.accepted = true ∧
    (PersistentLaptopClient.handle_pair_request lapSt "123456" "mob1").2 = lapSt ∧
    (PersistentLaptopClient.handle_pair_request
        (PersistentLaptopClient.handle_pair_request lapSt "123456" "mob1").2
        "123456" "mob2").1.accepted = true := by
  refine ⟨by decide, by decide, by decide⟩

/-- C4 amended: the host accepts any offer whose code equals its
currently-issued (truthy) code, and `handle_pair_request` never changes
the client state — the code is not invalidated after a successful use,
so repeated offers with the same code keep being accepted until the code
is regenerated. -/
theorem pairing_code_never_invalidated (st : LaptopClientState) (pc mid : String)
    (h : st.pairing_code = some pc) (hne : pc ≠ "") :
    (PersistentLaptopClient.handle_pair_request st pc mid).1.accepted = true ∧
    (PersistentLaptopClient.handle_pair_request st pc mid).2 = st := by
  unfold PersistentLaptopClient.handle_pair_request
  rw [h]
  simp [hne]

/-- C4 witness: the amended theorem applied to the fixture host and its
own issued code. -/
theorem pairing_code_never_invalidated_witness :
    (lapSt.pairing_code = some "123456" ∧ "123456" ≠ "") ∧
    ((PersistentLaptopClient.handle_pair_request lapSt "123456" "mob3").1.accepted = true ∧
     (PersistentLaptopClient.handle_pair_request lapSt "123456" "mob3").2 = lapSt) :=
  ⟨⟨rfl, by decide⟩,
   pairing_code_never_invalidated lapSt "123456" "mob3" rfl (by decide)⟩

/- ------------------------------------------------------------------
   C5
   ------------------------------------------------------------------ -/

/-- First registration of `"X"` from connection 0 on the empty state. -/
def regX0 : StepResult :=
  handle_client_msg hashW sendOkW emptyState 0 none "t1" (.register "X" "laptop" "n")

/-- Second registration of `"X"` from connection 1, while connection 0's
handler still holds `"X"` as its registered id. -/
def regX1 : StepResult :=
  handle_client_msg hashW sendOkW regX0.state 1 none "t1" (.register "X" "laptop" "n")

/-- Connection 0's `finally` cleanup, run after connection 1 took over. -/
def cleanupX0 : RelayState × List Effect :=
  handle_client_cleanup regX1.state regX0.deviceId "t2"

/-- C5 counterexample: after `"X"` registers from connection 1, the
registry does point at connection 1 — but neither registration closes
the superseded session (no close effect is ever produced), and when
connection 0's cleanup runs it deletes the registry entry for `"X"`
outright, leaving the still-live connection 1 unreachable. -/
theorem duplicate_register_first_cleanup_breaks_registry_cex :
    dictGet "X" regX1.state.devices = some 1 ∧
    ((regX0.effects ++ regX1.effects).any Effect.isClose) = false ∧
    dictGet "X" cleanupX0.1.devices = none := by
  refine ⟨by decide, by decide, by decide⟩

/-- When the cleaned-up connection's registered id is truthy and present
in the registry, the `finally` block deletes that registry entry. -/
theorem handle_client_cleanup_devices_present (s : RelayState) (id now : String)
    (hne : id ≠ "") (hp : (dictGet id s.devices).isSome) :
    (handle_client_cleanup s (some id) now).1.devices = dictDel id s.devices := by
  unfold handle_client_cleanup
  cases h : dictGet id s.devices with
  | none => rw [h] at hp; simp at hp
  | some v =>
    cases h2 : dictGet id s.device_info with
    | none => simp [if_neg hne, h, h2]
    | some d => simp [if_neg hne, h, h2]

/-- C5 amended: re-registering a device id from a second connection
replaces the registry entry, so immediately afterwards only the second
connection is reachable; but the superseded session is not closed (the
handler emits no close effect), and when the first connection's cleanup
later runs it deletes the registry entry for that id — without checking
which connection owns it — leaving the id unreachable entirely. -/
theorem reregister_replaces_entry_without_close
    (hash : String → String) (sendOk : ConnId → Bool) (s : RelayState)
    (c1 c2 : ConnId) (now now2 id t n : String)
    (hnodup : keysNodup s.devices) (_h1 : dictGet id s.devices = some c1)
    (hne : id ≠ "") :
    dictGet id
        (handle_client_msg hash sendOk s c2 none now (.register id t n)).state.devices =
      some c2 ∧
    ((handle_client_msg hash sendOk s c2 none now
        (.register id t n)).effects.any Effect.isClose) = false ∧
    dictGet id
        (handle_client_cleanup
          (handle_client_msg hash sendOk s c2 none now (.register id t n)).state
          (some id) now2).1.devices = none := by
  have hdev : (handle_client_msg hash sendOk s c2 none now
      (.register id t n)).state.devices = dictSet id c2 s.devices := by
    simp only [handle_client_msg, handle_register]
  refine ⟨?_, ?_, ?_⟩
  · rw [hdev]; exact dictGet_dictSet_self id c2 s.devices
  · simp only [handle_client_msg, handle_register]
    split
    · split <;> simp [Effect.isClose]
    · simp [Effect.isClose]
  · have hnd : keysNodup (handle_client_msg hash sendOk s c2 none now
        (.register id t n)).state.devices := by
      rw [hdev]; exact keysNodup_dictSet id c2 s.devices hnodup
    have hget : dictGet id (handle_client_msg hash sendOk s c2 none now
        (.register id t n)).state.devices = some c2 := by
      rw [hdev]; exact dictGet_dictSet_self id c2 s.devices
    rw [handle_client_cleanup_devices_present _ _ _ hne (by rw [hget]; rfl)]
    exact dictGet_dictDel_self id _ hnd

/-- C5 witness: the amended theorem applied to the second registration of
`"X"` in the concrete duplicate-register scenario. -/
theorem reregister_replaces_witness :
    (keysNodup regX0.state.devices ∧ dictGet "X" regX0.state.devices = some 0 ∧
      "X" ≠ "") ∧
    (dictGet "X"
        (handle_client_msg hashW sendOkW regX0.state 1 none "t3"
          (.register "X" "laptop" "n")).state.devices = some 1 ∧
     ((handle_client_msg hashW sendOkW regX0.state 1 none "t3"
        (.register "X" "laptop" "n")).effects.any Effect.isClose) = false ∧
     dictGet "X"
        (handle_client_cleanup
          (handle_client_msg hashW sendOkW regX0.state 1 none "t3"
            (.register "X" "laptop" "n")).state
          (some "X") "t4").1.devices = none) :=
  ⟨⟨by unfold keysNodup; decide, by decide, by decide⟩,
   reregister_replaces_entry_without_close hashW sendOkW regX0.state 0 1 "t3" "t4"
     "X" "laptop" "n" (by unfold keysNodup; decide) (by decide) (by decide)⟩

/- ------------------------------------------------------------------
   C6
   ------------------------------------------------------------------ -/

/-- Modelled from the spec: the required pairing-code format, "exactly
6 digits" (ASCII digits). -/
def isSixDigitCode (code : String) : Bool :=
  code.length == 6 && code.data.all Char.isDigit

/-- A connected laptop `"L"` (connection 0) and companion `"M"`
(connection 1), both registered, unpaired. -/
def sLapMob : RelayState :=
  ⟨[("L", 0), ("M", 1)],
   [("L", ⟨"laptop", "Lap", "f", "t0", "t0"⟩),
    ("M", ⟨"mobile", "Mob", "f", "t0", "t0"⟩)], []⟩

/-- C6 counterexample: the code `"12345Z"` is not six ASCII digits, yet
the relay forwards the offer verbatim to the laptop-class device on
connection 0 — the host receives the malformed-code offer and the
companion receives no `pairing_failed`. -/
theorem malformed_code_forwarded_to_host_cex :
    isSixDigitCode "12345Z" = false ∧
    (handle_client_msg hashW sendOkW sLapMob 1 (some "M") "t1"
        (.pair_request "12345Z" "Mob")).effects =
      [Effect.send 0 (.pair_request (some "M") "12345Z" "Mob")] := by
  refine ⟨by decide, by decide⟩

/-- C6 amended: the relay performs no format validation on the pairing
code: whenever the laptop scan finds a reachable laptop-class device,
any `pair_request` — whatever its code — is forwarded verbatim to that
device as the sole effect (`pairing_failed` is sent to the companion
only when no laptop is reachable); malformed codes are rejected only
later, by the host's own string comparison. -/
theorem pair_request_forwarded_without_format_check
    (hash : String → String) (sendOk : ConnId → Bool) (s : RelayState)
    (c : ConnId) (cid : Option String) (now code name : String) (w : ConnId)
    (h : findLaptopConn sendOk s.device_info s.devices = some w) :
    (handle_client_msg hash sendOk s c cid now (.pair_request code name)).effects =
      [Effect.send w (.pair_request cid code name)] := by
  simp only [handle_client_msg, handle_pair_request, h]

/-- C6 witness: the amended theorem applied to a malformed code in the
laptop-and-mobile fixture. -/
theorem pair_request_forwarded_witness :
    findLaptopConn sendOkW sLapMob.device_info sLapMob.devices = some 0 ∧
    (handle_client_msg hashW sendOkW sLapMob 1 (some "M") "t1"
        (.pair_request "not-a-code" "Mob")).effects =
      [Effect.send 0 (.pair_request (some "M") "not-a-code" "Mob")] :=
  ⟨by decide,
   pair_request_forwarded_without_format_check hashW sendOkW sLapMob 1 (some "M")
     "t1" "not-a-code" "Mob" 0 (by decide)⟩

/- ------------------------------------------------------------------
   C7
   ------------------------------------------------------------------ -/

/-- The accepted `pair_response` from `"A"` targeting `"B"` while the
store already holds the reversed tuple `("B", "A")`. -/
def addRevPair : StepResult :=
  handle_client_msg hashW sendOkW sRevPaired 0 (some "A") "t1" (.pair_response "B" true "hi")

/-- C7 counterexample: with `("B", "A")` already stored, accepting a
pairing of `"A"` with `"B"` is not a no-op — the store gains the second,
distinct tuple `("A", "B")`, because the tuple set is order-sensitive
and membership is only checked in the orientation being added. -/
theorem reversed_pair_add_not_noop_cex :
    (some "B", some "A") ∈ sRevPaired.paired_devices ∧
    (some "A", some "B") ∉ sRevPaired.paired_devices ∧
    addRevPair.state.paired_devices =
      [(some "B", some "A"), (some "A", some "B")] ∧
    addRevPair.state.paired_devices ≠ sRevPaired.paired_devices := by
  refine ⟨by decide, by decide, by decide, by decide⟩

/-- C7 amended: the accepted `pair_response` adds the tuple with Python
set semantics in the stored orientation only: when `(host, companion)`
itself is already stored the add is a no-op, but when only the reversed
tuple is stored the add appends a second entry — the store is
order-sensitive on writes (only the relay's `contains` check used for
routing is orientation-insensitive). -/
theorem pair_add_same_orientation_noop_only
    (hash : String → String) (sendOk : ConnId → Bool) (s : RelayState)
    (c tc : ConnId) (sid now target m : String)
    (htc : dictGet target s.devices = some tc) :
    (handle_client_msg hash sendOk s c (some sid) now
        (.pair_response target true m)).state.paired_devices =
      pySetAdd (some sid, some target) s.paired_devices ∧
    ((some sid, some target) ∈ s.paired_devices →
      (handle_client_msg hash sendOk s c (some sid) now
          (.pair_response target true m)).state.paired_devices = s.paired_devices) ∧
    ((some sid, some target) ∉ s.paired_devices →
      (handle_client_msg hash sendOk s c (some sid) now
          (.pair_response target true m)).state.paired_devices =
        s.paired_devices ++ [(some sid, some target)]) := by
  have hmain : (handle_client_msg hash sendOk s c (some sid) now
      (.pair_response target true m)).state.paired_devices =
      pySetAdd (some sid, some target) s.paired_devices := by
    simp only [handle_client_msg, handle_pair_response, htc, if_true]
  refine ⟨hmain, fun hmem => ?_, fun hmem => ?_⟩
  · rw [hmain]; unfold pySetAdd; rw [if_pos hmem]
  · rw [hmain]; unfold pySetAdd; rw [if_neg hmem]

/-- C7 witness: the amended theorem applied to the reversed-pair fixture,
where the add appends a second tuple. -/
theorem pair_add_witness :
    dictGet "B" sRevPaired.devices = some 1 ∧
    ((handle_client_msg hashW sendOkW sRevPaired 0 (some "A") "t1"
        (.pair_response "B" true "hi")).state.paired_devices =
      pySetAdd (some "A", some "B") sRevPaired.paired_devices ∧
     ((some "A", some "B") ∈ sRevPaired.paired_devices →
       (handle_client_msg hashW sendOkW sRevPaired 0 (some "A") "t1"
          (.pair_response "B" true "hi")).state.paired_devices =
         sRevPaired.paired_devices) ∧
     ((some "A", some "B") ∉ sRevPaired.paired_devices →
       (handle_client_msg hashW sendOkW sRevPaired 0 (some "A") "t1"
          (.pair_response "B" true "hi")).state.paired_devices =
         sRevPaired.paired_devices ++ [(some "A", some "B")])) :=
  ⟨by decide,
   pair_add_same_orientation_noop_only hashW sendOkW sRevPaired 0 1 "A" "t1" "B" "hi"
     (by decide)⟩

/- ------------------------------------------------------------------
   C8
   ------------------------------------------------------------------ -/

/-- First registration of `"X"` with display name `"n1"`. -/
def regXn1 : StepResult :=
  handle_client_msg hashW sendOkW emptyState 0 none "t1" (.register "X" "laptop" "n1")

/-- Re-registration of the same `"X"` with the new display name `"n2"`. -/
def regXn2 : StepResult :=
  handle_client_msg hashW sendOkW regXn1.state 0 regXn1.deviceId "t2"
    (.register "X" "laptop" "n2")

/-- C8 counterexample: re-registering `"X"` with the new display name
`"n2"` leaves exactly one directory entry and refreshes `last_seen`, but
keeps the original display name `"n1"` — the known-device branch updates
`last_seen` only, so `display_name` is not updated as the claim states. -/
theorem reregister_keeps_old_display_name_cex :
    (dictGet "X" regXn2.state.device_info).map DeviceInfo.device_name = some "n1" ∧
    (dictGet "X" regXn2.state.device_info).map DeviceInfo.device_name ≠ some "n2" ∧
    (dictGet "X" regXn2.state.device_info).map DeviceInfo.last_seen = some "t2" ∧
    countKey "X" regXn2.state.device_info = 1 := by
  refine ⟨by decide, by decide, by decide, by decide⟩

/-- C8 amended: re-registering a device id that already has a directory
record is idempotent on the directory shape — exactly one entry for that
id remains — and mutates only `last_seen`: the stored `device_type`,
`device_name`, `fingerprint` and `first_seen` keep their previous
values, whatever name the re-registration carries. -/
theorem reregister_updates_last_seen_only
    (hash : String → String) (sendOk : ConnId → Bool) (s : RelayState)
    (c : ConnId) (cid : Option String) (now id t n : String) (d : DeviceInfo)
    (hnodup : keysNodup s.device_info) (h : dictGet id s.device_info = some d) :
    dictGet id (handle_client_msg hash sendOk s c cid now
        (.register id t n)).state.device_info = some { d with last_seen := now } ∧
    countKey id (handle_client_msg hash sendOk s c cid now
        (.register id t n)).state.device_info = 1 := by
  have hinfo : (handle_client_msg hash sendOk s c cid now
      (.register id t n)).state.device_info =
      dictSet id { d with last_seen := now } s.device_info := by
    simp only [handle_client_msg, handle_register, h]
  rw [hinfo]
  exact ⟨dictGet_dictSet_self _ _ _, countKey_dictSet _ _ _ hnodup⟩

/-- The directory record created by the first registration of `"X"`. -/
def regXn1Info : DeviceInfo :=
  ⟨"laptop", "n1", generate_device_fingerprint hashW "X" "n1", "t1", "t1"⟩

/-- C8 witness: the amended theorem applied to the concrete
re-registration with the changed display name. -/
theorem reregister_updates_last_seen_only_witness :
    (keysNodup regXn1.state.device_info ∧
      (dictGet "X" regXn1.state.device_info).isSome) ∧
    (dictGet "X" (handle_client_msg hashW sendOkW regXn1.state 0 (some "X") "t2"
        (.register "X" "laptop" "n2")).state.device_info =
      some { regXn1Info with last_seen := "t2" } ∧
     countKey "X" (handle_client_msg hashW sendOkW regXn1.state 0 (some "X") "t2"
        (.register "X" "laptop" "n2")).state.device_info = 1) :=
  ⟨⟨by unfold keysNodup; decide, by decide⟩,
   reregister_updates_last_seen_only hashW sendOkW regXn1.state 0 (some "X") "t2"
     "X" "laptop" "n2" regXn1Info (by unfold keysNodup; decide) (by decide)⟩

/- ------------------------------------------------------------------
   C9
   ------------------------------------------------------------------ -/

/-- C9 counterexample: the persistence routine's trace on any state —
shown here on the empty store — writes the durable `devices.json` path
directly in place (truncate-and-write), so it is not an atomic
temp-then-rename write: a crash between truncation and completion leaves
the persisted store corrupt. -/
theorem persistence_write_not_atomic_cex :
    ¬ atomicWriteTrace [DEVICES_FILE, PAIRINGS_FILE] (save_persistent_data emptyState) := by
  intro h
  have hmem : FsOp.writeFile DEVICES_FILE (serializeDeviceInfo emptyState.device_info) ∈
      save_persistent_data emptyState := by
    simp [save_persistent_data]
  exact h _ _ hmem (by simp)

/-- C9 amended: every store mutation (registration, accepted pairing,
unpairing) performs the full serialize-and-write flush before any
acknowledgment is sent — the flush is the first effect of the step — but
that flush writes each durable file directly in place with the full
serialized store, not via a temporary location and rename. -/
theorem mutations_flush_before_ack_with_direct_write
    (hash : String → String) (sendOk : ConnId → Bool) (s : RelayState)
    (c tc : ConnId) (cid : Option String) (now id t n target m tid : String) :
    (handle_client_msg hash sendOk s c cid now
        (.register id t n)).effects.head? = some Effect.save ∧
    (dictGet target s.devices = some tc →
      (handle_client_msg hash sendOk s c cid now
          (.pair_response target true m)).effects.head? = some Effect.save) ∧
    (handle_client_msg hash sendOk s c cid now
        (.unpair_device tid)).effects.head? = some Effect.save ∧
    save_persistent_data s =
      [FsOp.writeFile DEVICES_FILE (serializeDeviceInfo s.device_info),
       FsOp.writeFile PAIRINGS_FILE (serializePairings s.paired_devices)] := by
  refine ⟨?_, fun h => ?_, ?_, rfl⟩
  · simp only [handle_client_msg, handle_register, List.head?_cons]
  · simp only [handle_client_msg, handle_pair_response, h, if_true, List.head?_cons]
  · simp only [handle_client_msg, handle_unpair_device, List.head?_cons]

/-- C9 witness: the amended theorem applied to the unpaired fixture, with
the accepted pairing targeting the connected device `"B"`. -/
theorem mutations_flush_witness :
    dictGet "B" sUnpaired.devices = some 1 ∧
    ((handle_client_msg hashW sendOkW sUnpaired 0 (some "A") "t1"
        (.register "A" "laptop" "Lap")).effects.head? = some Effect.save ∧
     (dictGet "B" sUnpaired.devices = some 1 →
       (handle_client_msg hashW sendOkW sUnpaired 0 (some "A") "t1"
          (.pair_response "B" true "m")).effects.head? = some Effect.save) ∧
     (handle_client_msg hashW sendOkW sUnpaired 0 (some "A") "t1"
        (.unpair_device "B")).effects.head? = some Effect.save ∧
     save_persistent_data sUnpaired =
       [FsOp.writeFile DEVICES_FILE (serializeDeviceInfo sUnpaired.device_info),
        FsOp.writeFile PAIRINGS_FILE (serializePairings sUnpaired.paired_devices)]) :=
  ⟨by decide,
   mutations_flush_before_ack_with_direct_write hashW sendOkW sUnpaired 0 1 (some "A")
     "t1" "A" "laptop" "Lap" "B" "m" "B"⟩

/- ------------------------------------------------------------------
   C10
   ------------------------------------------------------------------ -/

/-- C10: every pairing code the host generates — the decimal string of an
integer drawn from `[100000, 999999]` — is exactly 6 characters, its
first character is never `'0'`, and consequently no 6-character code
beginning with `'0'` can ever equal a host-generated code. -/
theorem pairing_code_six_digits_no_leading_zero (n : Nat)
    (h1 : 100000 ≤ n) (h2 : n ≤ 999999) :
    (PersistentLaptopClient.generate_pairing_code n).length = 6 ∧
    (∀ ch, (PersistentLaptopClient.generate_pairing_code n).head? = some ch →
      ch ≠ '0') ∧
    (∀ code : List Char, code.length = 6 → code.head? = some '0' →
      code ≠ PersistentLaptopClient.generate_pairing_code n) := by
  have hn0 : n ≠ 0 := by omega
  have hne : Nat.digits 10 n ≠ [] := Nat.digits_ne_nil_iff_ne_zero.mpr hn0
  have hcode : PersistentLaptopClient.generate_pairing_code n =
      ((Nat.digits 10 n).map Nat.digitChar).reverse := by
    unfold PersistentLaptopClient.generate_pairing_code PersistentLaptopClient.decimalChars
    rw [if_neg hn0]
  have hlen : (Nat.digits 10 n).length = 6 := by
    rw [Nat.digits_len 10 n (by norm_num) hn0]
    have hlog : Nat.log 10 n = 5 :=
      Nat.log_eq_of_pow_le_of_lt_pow (by norm_num; omega) (by norm_num; omega)
    omega
  have hlast : (Nat.digits 10 n).getLast? =
      some ((Nat.digits 10 n).getLast hne) := List.getLast?_eq_getLast _ hne
  have hlast_ne : (Nat.digits 10 n).getLast hne ≠ 0 :=
    Nat.getLast_digit_ne_zero 10 hn0
  have hlast_lt : (Nat.digits 10 n).getLast hne < 10 :=
    Nat.digits_lt_base (by norm_num) (List.getLast_mem hne)
  have hhead : (PersistentLaptopClient.generate_pairing_code n).head? =
      some (Nat.digitChar ((Nat.digits 10 n).getLast hne)) := by
    rw [hcode, List.head?_reverse, List.getLast?_map, hlast, Option.map_some']
  have hchar0 : ∀ d : Nat, d ≠ 0 → d < 10 → Nat.digitChar d ≠ '0' := by
    intro d hd0 hd10
    interval_cases d <;> first | omega | decide
  have hchar : Nat.digitChar ((Nat.digits 10 n).getLast hne) ≠ '0' :=
    hchar0 _ hlast_ne hlast_lt
  refine ⟨?_, ?_, ?_⟩
  · rw [hcode]
    simp [hlen]
  · intro ch hch
    rw [hhead] at hch
    injection hch with hch
    exact hch ▸ hchar
  · intro code hlen6 hhead0 heq
    rw [heq, hhead] at hhead0
    injection hhead0 with hh
    exact hchar hh

/-- C10 witness: the theorem applied to the draw `482913`. -/
theorem pairing_code_witness :
    (100000 ≤ 482913 ∧ 482913 ≤ 999999) ∧
    ((PersistentLaptopClient.generate_pairing_code 482913).length = 6 ∧
     (∀ ch, (PersistentLaptopClient.generate_pairing_code 482913).head? = some ch →
       ch ≠ '0') ∧
     (∀ code : List Char, code.length = 6 → code.head? = some '0' →
       code ≠ PersistentLaptopClient.generate_pairing_code 482913)) :=
  ⟨⟨by norm_num, by norm_num⟩,
   pairing_code_six_digits_no_leading_zero 482913 (by norm_num) (by norm_num)⟩

end RemoteAccess
